import Mathlib

/-!
Shallow embedding of the StudyBuddy repository core (utils.py, file_manager.py,
openai_client.py and the quiz-grading block of main.py), together with proofs
checking the specification's claims against it.

Conventions used throughout:
* Python strings are modelled as `String` / `List Char`; file sizes in MB are
  kept exact by scaling to tenths of a megabyte (see `get_file_size_mb_x10`).
* `json.loads` is modelled by an executable recursive-descent parser faithful to
  CPython's `json` module for ASCII input: the same value grammar (including the
  non-standard `NaN` / `Infinity` / `-Infinity` constants), the same whitespace
  set, strict rejection of trailing data, and CPython's error-message positions
  for the cases exercised here.  Numbers are kept as their source lexemes, since
  no claim depends on numeric value semantics.
-/

/-- JSON values as decoded by Python's `json.loads`.  Object fields keep
insertion order; a duplicated key overwrites the value in place, as a Python
`dict` does.  Numbers are stored as their lexemes. -/
inductive Json where
  | null
  | bool (b : Bool)
  | num (lexeme : String)
  | str (s : String)
  | arr (items : List Json)
  | obj (fields : List (String × Json))

/-- `true` on `.ok`, `false` on `.error` (models "the call did not raise"). -/
def except_is_ok : Except ε α → Bool
  | .ok _ => true
  | .error _ => false

/-- Whitespace skipped by CPython's json scanner: space, tab, newline, return. -/
def is_json_ws (c : Char) : Bool := c == ' ' || c == '\t' || c == '\n' || c == '\r'

/-- Skip json whitespace, tracking the absolute position. -/
def skip_ws : List Char → Nat → List Char × Nat
  | [], pos => ([], pos)
  | c :: rest, pos => if is_json_ws c then skip_ws rest (pos + 1) else (c :: rest, pos)

/-- `str.startswith` on character lists. -/
def starts_with_chars : List Char → List Char → Bool
  | [], _ => true
  | _ :: _, [] => false
  | p :: ps, c :: cs => p == c && starts_with_chars ps cs

def hex_digit_value (c : Char) : Option Nat :=
  if '0' ≤ c ∧ c ≤ '9' then some (c.toNat - 48)
  else if 'a' ≤ c ∧ c ≤ 'f' then some (c.toNat - 87)
  else if 'A' ≤ c ∧ c ≤ 'F' then some (c.toNat - 55)
  else none

/-- Body of a JSON string literal, entered just after the opening quote.
Models CPython's `py_scanstring`: escapes, rejection of raw control
characters, `\uXXXX` (surrogate pairs are not recombined; no claim uses
them).  `quote_pos` is the position of the opening quote, used for the
"Unterminated string" error position as CPython does. -/
def parse_string_body : Nat → List Char → Nat → Nat → List Char →
    Except (String × Nat) (String × List Char × Nat)
  | 0, _, _, quote_pos, _ => .error ("Unterminated string starting at", quote_pos)
  | _ + 1, [], _, quote_pos, _ => .error ("Unterminated string starting at", quote_pos)
  | fuel + 1, c :: rest, pos, quote_pos, acc =>
    if c == '"' then .ok (String.mk acc.reverse, rest, pos + 1)
    else if c == '\\' then
      match rest with
      | [] => .error ("Unterminated string starting at", quote_pos)
      | e :: rest2 =>
        if e == '"' then parse_string_body fuel rest2 (pos + 2) quote_pos ('"' :: acc)
        else if e == '\\' then parse_string_body fuel rest2 (pos + 2) quote_pos ('\\' :: acc)
        else if e == '/' then parse_string_body fuel rest2 (pos + 2) quote_pos ('/' :: acc)
        else if e == 'b' then parse_string_body fuel rest2 (pos + 2) quote_pos ('\x08' :: acc)
        else if e == 'f' then parse_string_body fuel rest2 (pos + 2) quote_pos ('\x0c' :: acc)
        else if e == 'n' then parse_string_body fuel rest2 (pos + 2) quote_pos ('\n' :: acc)
        else if e == 'r' then parse_string_body fuel rest2 (pos + 2) quote_pos ('\r' :: acc)
        else if e == 't' then parse_string_body fuel rest2 (pos + 2) quote_pos ('\t' :: acc)
        else if e == 'u' then
          match rest2 with
          | h1 :: h2 :: h3 :: h4 :: rest3 =>
            match hex_digit_value h1, hex_digit_value h2, hex_digit_value h3, hex_digit_value h4 with
            | some v1, some v2, some v3, some v4 =>
              parse_string_body fuel rest3 (pos + 6) quote_pos
                (Char.ofNat (((v1 * 16 + v2) * 16 + v3) * 16 + v4) :: acc)
            | _, _, _, _ => .error ("Invalid \\uXXXX escape", pos + 1)
          | _ => .error ("Invalid \\uXXXX escape", pos + 1)
        else .error ("Invalid \\escape", pos + 1)
    else if c.toNat < 32 then .error ("Invalid control character at", pos)
    else parse_string_body fuel rest (pos + 1) quote_pos (c :: acc)

def is_digit_char (c : Char) : Bool := '0' ≤ c && c ≤ '9'

/-- Optional fraction and exponent of a number, per json's `NUMBER_RE`
`(\.\d+)?([eE][-+]?\d+)?`: each part is consumed only when complete. -/
def number_frac_exp (cs : List Char) : List Char × List Char :=
  let (frac_part, cs1) :=
    match cs with
    | '.' :: r =>
      match r.span is_digit_char with
      | ([], _) => (([] : List Char), cs)
      | (ds, r2) => ('.' :: ds, r2)
    | _ => ([], cs)
  let (exp_part, cs2) :=
    match cs1 with
    | e :: r =>
      if e == 'e' || e == 'E' then
        let (sgn, r1) :=
          match r with
          | s :: r2 => if s == '+' || s == '-' then (([s] : List Char), r2) else ([], r)
          | [] => ([], r)
        match r1.span is_digit_char with
        | ([], _) => (([] : List Char), cs1)
        | (ds, r2) => (e :: (sgn ++ ds), r2)
      else ([], cs1)
    | [] => ([], cs1)
  (frac_part ++ exp_part, cs2)

/-- Number lexeme per json's `NUMBER_RE` `(-?(?:0|[1-9]\d*))(\.\d+)?([eE][-+]?\d+)?`.
Returns the matched lexeme and the rest, or `none` when no number starts here. -/
def parse_number (cs : List Char) : Option (List Char × List Char) :=
  let (sign, cs1) :=
    match cs with
    | '-' :: r => ((['-'] : List Char), r)
    | _ => ([], cs)
  match cs1 with
  | [] => none
  | c :: rest =>
    if !is_digit_char c then none
    else
      let (int_part, cs2) :=
        if c == '0' then (([c] : List Char), rest)
        else
          let (ds, r) := rest.span is_digit_char
          (c :: ds, r)
      let (tail, cs3) := number_frac_exp cs2
      some (sign ++ int_part ++ tail, cs3)

/-- Python-dict insertion: a duplicated key keeps its position, value replaced. -/
def obj_insert : List (String × Json) → String → Json → List (String × Json)
  | [], k, v => [(k, v)]
  | (k0, v0) :: rest, k, v =>
    if k0 == k then (k0, v) :: rest else (k0, v0) :: obj_insert rest k v

/-- What the recursive scanner is currently parsing: a value, the items of a
(non-empty) array, or the remaining `"key": value` items of a (non-empty)
object with the fields decoded so far. -/
inductive ParseMode where
  | value
  | array_items
  | object_items (acc : List (String × Json))

/-- The recursive core of CPython's json scanner (`_scan_once` together with
its array/object item loops), written as one fueled function so that it is
structurally recursive.  In `.value` mode it parses one JSON value starting at
`cs` (absolute position `pos`), with `_scan_once`'s lookup order: string,
object, array, constants, number, then NaN/Infinity.  The item modes always
return `.arr items` resp. `.obj fields`; the fuel only bounds nesting and is
chosen large enough at the top level to never run out. -/
def parse_json : Nat → ParseMode → List Char → Nat → Except (String × Nat) (Json × List Char × Nat)
  | 0, .value, _, pos => .error ("Expecting value", pos)
  | 0, .array_items, _, pos => .error ("Expecting value", pos)
  | 0, .object_items _, _, pos => .error ("Expecting property name enclosed in double quotes", pos)
  | fuel + 1, .value, cs, pos =>
    match cs with
    | '"' :: rest =>
      match parse_string_body (rest.length + 1) rest (pos + 1) pos [] with
      | .ok (s, rest2, pos2) => .ok (.str s, rest2, pos2)
      | .error e => .error e
    | '{' :: rest =>
      let (cs1, p1) := skip_ws rest (pos + 1)
      match cs1 with
      | '}' :: rest2 => .ok (.obj [], rest2, p1 + 1)
      | _ => parse_json fuel (.object_items []) cs1 p1
    | '[' :: rest =>
      let (cs1, p1) := skip_ws rest (pos + 1)
      match cs1 with
      | ']' :: rest2 => .ok (.arr [], rest2, p1 + 1)
      | _ => parse_json fuel .array_items cs1 p1
    | _ =>
      if starts_with_chars "null".data cs then .ok (.null, cs.drop 4, pos + 4)
      else if starts_with_chars "true".data cs then .ok (.bool true, cs.drop 4, pos + 4)
      else if starts_with_chars "false".data cs then .ok (.bool false, cs.drop 5, pos + 5)
      else
        match parse_number cs with
        | some (lex, rest) => .ok (.num (String.mk lex), rest, pos + lex.length)
        | none =>
          if starts_with_chars "NaN".data cs then .ok (.num "NaN", cs.drop 3, pos + 3)
          else if starts_with_chars "Infinity".data cs then .ok (.num "Infinity", cs.drop 8, pos + 8)
          else if starts_with_chars "-Infinity".data cs then .ok (.num "-Infinity", cs.drop 9, pos + 9)
          else .error ("Expecting value", pos)
  | fuel + 1, .array_items, cs, pos =>
    match parse_json fuel .value cs pos with
    | .error e => .error e
    | .ok (v, cs1, p1) =>
      let (cs2, p2) := skip_ws cs1 p1
      match cs2 with
      | ']' :: rest => .ok (.arr [v], rest, p2 + 1)
      | ',' :: rest =>
        let (cs3, p3) := skip_ws rest (p2 + 1)
        match parse_json fuel .array_items cs3 p3 with
        | .ok (.arr vs, rest2, p4) => .ok (.arr (v :: vs), rest2, p4)
        | .ok (_, _, p4) => .error ("Expecting value", p4)
        | .error e => .error e
      | _ => .error ("Expecting ',' delimiter", p2)
  | fuel + 1, .object_items acc, cs, pos =>
    match cs with
    | '"' :: rest =>
      match parse_string_body (rest.length + 1) rest (pos + 1) pos [] with
      | .error e => .error e
      | .ok (key, cs1, p1) =>
        let (cs2, p2) := skip_ws cs1 p1
        match cs2 with
        | ':' :: rest2 =>
          let (cs3, p3) := skip_ws rest2 (p2 + 1)
          match parse_json fuel .value cs3 p3 with
          | .error e => .error e
          | .ok (v, cs4, p4) =>
            let acc2 := obj_insert acc key v
            let (cs5, p5) := skip_ws cs4 p4
            match cs5 with
            | '}' :: rest3 => .ok (.obj acc2, rest3, p5 + 1)
            | ',' :: rest3 =>
              let (cs6, p6) := skip_ws rest3 (p5 + 1)
              parse_json fuel (.object_items acc2) cs6 p6
            | _ => .error ("Expecting ',' delimiter", p5)
        | _ => .error ("Expecting ':' delimiter", p2)
    | _ => .error ("Expecting property name enclosed in double quotes", pos)

/-- `json.loads` on a character list: one value, surrounding whitespace
allowed, anything further is "Extra data".  Errors carry CPython's message
kind and the absolute character position. -/
def json_loads (cs : List Char) : Except (String × Nat) Json :=
  let (cs1, p1) := skip_ws cs 0
  match parse_json (3 * cs.length + 3) .value cs1 p1 with
  | .error e => .error e
  | .ok (v, rest, p2) =>
    let (rest2, p3) := skip_ws rest p2
    match rest2 with
    | [] => .ok v
    | _ => .error ("Extra data", p3)

/-- Render a `json.JSONDecodeError` the way CPython's `str(e)` does:
`"{msg}: line {lineno} column {colno} (char {pos})"` with the line count and
column computed from the document being parsed. -/
def render_json_error (doc : List Char) (kind : String) (pos : Nat) : String :=
  let pre := doc.take pos
  let lineno := 1 + pre.countP (fun x => x == '\n')
  let colno :=
    match ((pre.enum.filter (fun p => p.2 == '\n')).getLast?).map (fun p => p.1) with
    | some i => pos - i
    | none => pos + 1
  s!"{kind}: line {lineno} column {colno} (char {pos})"

/-- ASCII subset of the whitespace stripped by Python's default `str.strip()`. -/
def py_ws_char (c : Char) : Bool :=
  c == ' ' || c == '\t' || c == '\n' || c == '\r' || c == '\x0b' || c == '\x0c'

/-- The character set of the source's `strip("`\n ")` calls. -/
def fence_char (c : Char) : Bool := c == '`' || c == '\n' || c == ' '

def py_lstrip (p : Char → Bool) (l : List Char) : List Char := l.dropWhile p

def py_rstrip (p : Char → Bool) (l : List Char) : List Char := (l.reverse.dropWhile p).reverse

/-- Python `str.strip`: drop the given characters from both ends. -/
def py_strip (p : Char → Bool) (l : List Char) : List Char := py_rstrip p (py_lstrip p l)

/-- The code-fence removal step of `extract_first_json_array`:
`if text.strip().startswith("```"): cleaned = text.strip().strip("`\n ");
if cleaned.startswith("json\n"): cleaned = cleaned[len("json\n"):];
text = cleaned.strip("`\n ")`.  When the text is not fenced it is untouched. -/
def clean_fences (text : List Char) : List Char :=
  let t1 := py_strip py_ws_char text
  if starts_with_chars "```".data t1 then
    let cleaned := py_strip fence_char t1
    let cleaned2 := if starts_with_chars "json\n".data cleaned then cleaned.drop 5 else cleaned
    py_strip fence_char cleaned2
  else text

/-- Python slice `cs[i : i + j]`. -/
def py_slice (cs : List Char) (i j : Nat) : List Char := (cs.drop i).take j

def first_idx_of (c : Char) (cs : List Char) : Option Nat := cs.findIdx? (fun x => x == c)

def last_idx_of (c : Char) (cs : List Char) : Option Nat :=
  ((cs.enum.filter (fun p => p.2 == c)).getLast?).map (fun p => p.1)

/-- The `re.search(r"\[.*\]", text, re.DOTALL)` candidate: the greedy leftmost
match runs from the first `[` to the last `]` of the text, provided the
latter comes after the former. -/
def regex_array_candidate (cs : List Char) : Option (List Char) :=
  match first_idx_of '[' cs, last_idx_of ']' cs with
  | some i, some j => if i < j then some (py_slice cs i (j + 1 - i)) else none
  | _, _ => none

/-- The source's bracket-depth scan: walk the text tracking `[`/`]` depth,
remember where depth first left zero, and report the span when depth returns
to zero (the Python loop `break`s there). -/
def scan_loop : List Char → Nat → Nat → Option Nat → Option (Nat × Nat)
  | [], _, _, _ => none
  | c :: rest, i, depth, start =>
    if c == '[' then
      scan_loop rest (i + 1) (depth + 1) (if depth == 0 then some i else start)
    else if c == ']' then
      if 0 < depth then
        if depth == 1 then
          match start with
          | some s => some (s, i)
          | none => scan_loop rest (i + 1) 0 none
        else scan_loop rest (i + 1) (depth - 1) start
      else scan_loop rest (i + 1) depth start
    else scan_loop rest (i + 1) depth start

def scan_array_candidate (cs : List Char) : Option (List Char) :=
  match scan_loop cs 0 0 none with
  | some (s, e) => some (py_slice cs s (e + 1 - s))
  | none => none

/-- `for cand in candidates: try: return json.loads(cand) except: continue`. -/
def first_parse : List (List Char) → Option Json
  | [] => none
  | c :: rest =>
    match json_loads c with
    | .ok v => some v
    | .error _ => first_parse rest

/-- `utils.extract_first_json_array`: strip fences, collect the regex candidate
and the balanced-scan candidate, return the first candidate that parses, fall
back to parsing the whole (cleaned) text, and otherwise re-raise as
`ValueError(f"Could not parse quiz data: {e}")` where `e` is the decode error
of the fallback parse. -/
def extract_first_json_array (text : String) : Except String Json :=
  let t := clean_fences text.data
  let candidates :=
    (match regex_array_candidate t with | some c => [c] | none => []) ++
    (match scan_array_candidate t with | some c => [c] | none => [])
  match first_parse candidates with
  | some v => .ok v
  | none =>
    match json_loads t with
    | .ok v => .ok v
    | .error (kind, pos) => .error ("Could not parse quiz data: " ++ render_json_error t kind pos)

/-- `l` occurs as a contiguous segment of `t`. -/
def SubSeg (l t : List Char) : Prop := ∃ a b : List Char, t = a ++ l ++ b

/-- All contiguous segments of `cs` (with repetitions), as an executable list. -/
def all_sub_segs (cs : List Char) : List (List Char) :=
  (List.range (cs.length + 1)).flatMap
    (fun i => (List.range (cs.length + 1)).map (fun j => py_slice cs i j))

/-- Executable substring test (used to state that an error message does not
contain a given text). -/
def contains_seg : List Char → List Char → Bool
  | [], needle => needle.isEmpty
  | c :: rest, needle => starts_with_chars needle (c :: rest) || contains_seg rest needle

def json_is_arr : Json → Bool
  | .arr _ => true
  | _ => false

def obj_lookup (fields : List (String × Json)) (key : String) : Option Json :=
  (fields.find? (fun p => p.1 == key)).map (fun p => p.2)

/-! ### config.py and the file-validation helpers of utils.py -/

/-- `config.SUPPORTED_EXTS` (a Python set; modelled as a list, membership only). -/
def SUPPORTED_EXTS : List String :=
  ["pdf", "txt", "md", "docx", "pptx", "csv", "json", "html",
   "py", "java", "rb", "tex", "c", "cpp"]

/-- `config.MAX_FILE_SIZE_MB`. -/
def MAX_FILE_SIZE_MB : Nat := 200

/-- `pathlib.PurePath.name`: the final path component, ignoring trailing
slashes. -/
def path_name (cs : List Char) : List Char :=
  let trimmed := (cs.reverse.dropWhile (fun c => c == '/')).reverse
  match last_idx_of '/' trimmed with
  | some i => trimmed.drop (i + 1)
  | none => trimmed

/-- `pathlib.PurePath.suffix`: from the last dot of the name, provided that dot
is neither the first nor the last character of the name. -/
def path_suffix (cs : List Char) : List Char :=
  let name := path_name cs
  match last_idx_of '.' name with
  | some i => if 0 < i ∧ i < name.length - 1 then name.drop i else []
  | none => []

/-- `str.lower` on one character, for ASCII: exactly `A`-`Z` are lowered.
(Python's `str.lower` also lowers non-ASCII letters; no filename in the
claims uses any.) -/
def py_char_lower : Char → Char
  | 'A' => 'a' | 'B' => 'b' | 'C' => 'c' | 'D' => 'd' | 'E' => 'e' | 'F' => 'f' | 'G' => 'g'
  | 'H' => 'h' | 'I' => 'i' | 'J' => 'j' | 'K' => 'k' | 'L' => 'l' | 'M' => 'm' | 'N' => 'n'
  | 'O' => 'o' | 'P' => 'p' | 'Q' => 'q' | 'R' => 'r' | 'S' => 's' | 'T' => 't' | 'U' => 'u'
  | 'V' => 'v' | 'W' => 'w' | 'X' => 'x' | 'Y' => 'y' | 'Z' => 'z'
  | c => c

/-- Python `str.lower` (ASCII model). -/
def str_lower (s : String) : String := String.mk (s.data.map py_char_lower)

/-- `Path(filename).suffix.lower().lstrip(".")` as computed in
`utils.validate_file_type` (and reused for `file_type` in
`FileManager.add_file`). -/
def file_ext (filename : String) : String :=
  String.mk (((path_suffix filename.data).map py_char_lower).dropWhile (fun c => c == '.'))

/-- `utils.validate_file_type`. -/
def validate_file_type (filename : String) (supported_extensions : List String) : Bool :=
  supported_extensions.contains (file_ext filename)

/-- `utils.get_file_size_mb`, i.e. `round(file_size_bytes / (1024 * 1024), 1)`,
computed exactly and returned scaled by 10 (tenths of a megabyte) so that the
whole model stays in `Nat`.  `round(x, 1)` is `round_half_even(x * 10) / 10`;
here `x * 10 = file_size_bytes * 10 / 2^20` is an exact rational `q + r/2^20`,
rounded half-to-even as Python's `round` does.  (No size used in the claims is
a tie or close enough to one for the source's float detour to differ.) -/
def get_file_size_mb_x10 (file_size_bytes : Nat) : Nat :=
  let scaled := file_size_bytes * 10
  let q := scaled / (1024 * 1024)
  let r := scaled % (1024 * 1024)
  if 2 * r < 1024 * 1024 then q
  else if 1024 * 1024 < 2 * r then q + 1
  else if q % 2 = 0 then q else q + 1

/-- `utils.create_temp_filename`, with the `int(time.time())` timestamp passed
in as `now`. -/
def create_temp_filename (now : Nat) (original_name : String) : String :=
  s!"temp_{now}_{original_name}"

/-! ### file_manager.py -/

/-- The `UploadedFile` dataclass.  `file_size_mb_x10` keeps the rounded size
in tenths of a megabyte (see `get_file_size_mb_x10`). -/
structure UploadedFile where
  original_name : String
  temp_path : String
  file_id : String
  file_size_mb_x10 : Nat
  file_type : String
  upload_time : Nat

/-- The mutable state of a `FileManager` instance. -/
structure FileMgrState where
  uploaded_files : List UploadedFile
  vector_store_id : Option String
  assistant_id : Option String

/-- `FileManager.__init__`. -/
def empty_state : FileMgrState := ⟨[], none, none⟩

/-- Python truthiness of an `Optional[str]`: `None` and `""` are falsy. -/
def py_truthy_str : Option String → Bool
  | none => false
  | some s => !s.isEmpty

/-- The `ValueError`s that `FileManager.add_file` can raise, by message:
`"File type not supported: {name}"` and
`"File too large: {size}MB (max: {max}MB)"`. -/
inductive AddFileError where
  | unsupported_type (name : String)
  | too_large (size_mb_x10 : Nat) (max_mb : Nat)

/-- `FileManager.add_file` (the disk write of the temp copy is not modelled;
`now` stands for `time.time()`).  On an error the exception propagates and the
state is returned unchanged by construction. -/
def add_file (file_data : String × Nat) (now : Nat) (st : FileMgrState) :
    Except AddFileError (UploadedFile × FileMgrState) :=
  if !validate_file_type file_data.1 SUPPORTED_EXTS then
    .error (.unsupported_type file_data.1)
  else
    let file_size_mb_x10 := get_file_size_mb_x10 file_data.2
    if MAX_FILE_SIZE_MB * 10 < file_size_mb_x10 then
      .error (.too_large file_size_mb_x10 MAX_FILE_SIZE_MB)
    else
      let file_info : UploadedFile :=
        { original_name := file_data.1
          temp_path := create_temp_filename now file_data.1
          file_id := ""
          file_size_mb_x10 := file_size_mb_x10
          file_type := file_ext file_data.1
          upload_time := now }
      .ok (file_info, { st with uploaded_files := st.uploaded_files ++ [file_info] })

/-- `FileManager.has_file_with_name`. -/
def has_file_with_name (st : FileMgrState) (filename : String) : Bool :=
  st.uploaded_files.any (fun f => f.original_name == filename)

/-- `FileManager.get_file_by_name` (first match wins). -/
def get_file_by_name (st : FileMgrState) (filename : String) : Option UploadedFile :=
  st.uploaded_files.find? (fun f => f.original_name == filename)

/-- The list traversal of `FileManager.remove_file`: pop the first file whose
name matches, reporting whether one was found. -/
def remove_first_by_name : List UploadedFile → String → Bool × List UploadedFile
  | [], _ => (false, [])
  | f :: rest, filename =>
    if f.original_name == filename then (true, rest)
    else
      let (b, l) := remove_first_by_name rest filename
      (b, f :: l)

/-- `FileManager.remove_file` (the temp-file cleanup is filesystem-only). -/
def remove_file (st : FileMgrState) (filename : String) : Bool × FileMgrState :=
  let (b, l) := remove_first_by_name st.uploaded_files filename
  (b, { st with uploaded_files := l })

/-- The list traversal of `FileManager.update_file_id`: set `file_id` on the
first file whose name matches. -/
def set_file_id_in_list : List UploadedFile → String → String → Bool × List UploadedFile
  | [], _, _ => (false, [])
  | f :: rest, filename, fid =>
    if f.original_name == filename then (true, { f with file_id := fid } :: rest)
    else
      let (b, l) := set_file_id_in_list rest filename fid
      (b, f :: l)

/-- `FileManager.update_file_id`. -/
def update_file_id (st : FileMgrState) (filename file_id : String) : Bool × FileMgrState :=
  let (b, l) := set_file_id_in_list st.uploaded_files filename file_id
  (b, { st with uploaded_files := l })

/-- The remote operations issued by the modelled code, with the outcome the
remote side reported (`ok := false` means that call failed and was merely
logged). -/
inductive RemoteCall where
  | upload_file (path : String) (returned_id : String)
  | attach_file_to_vector_store (vs_id file_id : String)
  | remove_file_from_vector_store (vs_id file_id : String) (ok : Bool)
  | delete_file (file_id : String) (ok : Bool)

/-- `FileManager.remove_file_from_openai`: detach from the vector store and
delete from the Files API, each guarded by truthiness checks and a
`try/except` that logs failures.  `detach_ok` / `delete_ok` are what the
remote side answers.  The returned flag is `True` whenever the file is
tracked, regardless of those outcomes. -/
def remove_file_from_openai (st : FileMgrState) (filename : String)
    (detach_ok delete_ok : Bool) : Bool × List RemoteCall :=
  match get_file_by_name st filename with
  | none => (false, [])
  | some file_info =>
    let calls1 :=
      match st.vector_store_id with
      | some vs =>
        if !vs.isEmpty && !file_info.file_id.isEmpty then
          [RemoteCall.remove_file_from_vector_store vs file_info.file_id detach_ok]
        else []
      | none => []
    let calls2 :=
      if !file_info.file_id.isEmpty then
        calls1 ++ [RemoteCall.delete_file file_info.file_id delete_ok]
      else calls1
    (true, calls2)

/-- `FileManager.remove_file_completely`: run the remote cleanup when a client
is provided (discarding its result, as the source does), then remove locally
and return that flag. -/
def remove_file_completely (st : FileMgrState) (filename : String)
    (client_present detach_ok delete_ok : Bool) : Bool × FileMgrState × List RemoteCall :=
  let remote_calls :=
    if client_present then (remove_file_from_openai st filename detach_ok delete_ok).2 else []
  let (ok, st2) := remove_file st filename
  (ok, st2, remote_calls)

/-- `FileManager.needs_vector_store_update`. -/
def needs_vector_store_update (st : FileMgrState) : Bool :=
  if st.uploaded_files.isEmpty then
    py_truthy_str st.vector_store_id || py_truthy_str st.assistant_id
  else if !py_truthy_str st.vector_store_id then true
  else false

/-! ### main.py -/

/-- Outcome of one iteration of the upload loop in `main.handle_file_upload`. -/
inductive UploadOutcome where
  | skipped
  | uploaded
  | failed (e : AddFileError)

def upload_outcome_failed : UploadOutcome → Bool
  | .failed _ => true
  | _ => false

/-- The body of the `for uploaded_file in uploaded_files` loop of
`main.handle_file_upload` for a single file `(name, size)`: skip silently when
the name is already tracked, otherwise `add_file`, upload to the Files API
(modelled as succeeding with id `new_file_id`), record the id, and attach to
the vector store when one already exists.  An `add_file` exception is caught
by the `except` block (an error is shown; no state change, no remote call). -/
def handle_file_upload_step (file : String × Nat) (st : FileMgrState)
    (new_file_id : String) (now : Nat) : UploadOutcome × FileMgrState × List RemoteCall :=
  if has_file_with_name st file.1 then (.skipped, st, [])
  else
    match add_file file now st with
    | .error e => (.failed e, st, [])
    | .ok (file_info, st1) =>
      let calls := [RemoteCall.upload_file file_info.temp_path new_file_id]
      let st2 := (update_file_id st1 file_info.original_name new_file_id).2
      match st2.vector_store_id with
      | some vs =>
        if !vs.isEmpty then
          (.uploaded, st2, calls ++ [RemoteCall.attach_file_to_vector_store vs new_file_id])
        else (.uploaded, st2, calls)
      | none => (.uploaded, st2, calls)

/-- A quiz record as consumed by the quiz tab of main.py. -/
structure QuizItem where
  question : String
  options : List String
  correct : String

/-- One iteration of the grading loop in the `submit_quiz` block: compare the
selected option with `question["correct"]` by exact string equality, bump the
score and append the result line. -/
def grade_step (user_answers : Nat → String) (acc : Nat × List String)
    (iq : Nat × QuizItem) : Nat × List String :=
  let idx := iq.1
  let question := iq.2
  let correct_answer := question.correct
  let user_answer := user_answers idx
  let n1 := idx + 1
  if user_answer == correct_answer then
    (acc.1 + 1, acc.2 ++ [s!"✅ Question {n1}: Correct!"])
  else
    (acc.1, acc.2 ++ [s!"❌ Question {n1}: Incorrect. The correct answer is: {correct_answer}"])

/-- The grading loop of the `submit_quiz` block of main.py: fold over
`enumerate(quiz_data)` starting from `score = 0`, `results = []`. -/
def grade_quiz (quiz_data : List QuizItem) (user_answers : Nat → String) : Nat × List String :=
  (quiz_data.enum).foldl (grade_step user_answers) (0, [])

/-! ### openai_client.py -/

/-- `run.status in {"completed", "failed", "cancelled", "expired"}`. -/
def is_terminal_run_status (s : String) : Bool :=
  s == "completed" || s == "failed" || s == "cancelled" || s == "expired"

/-- The message of the `RuntimeError` raised on timeout. -/
def run_timeout_message (timeout : Nat) : String :=
  s!"Run timed out after {timeout} seconds"

/-- The polling loop of `StudyBuddyClient.wait_for_run_completion`.  Each
iteration ends with `time.sleep(1)` and the retrieve call is treated as
instantaneous, so at the start of iteration `k` the elapsed wall-clock time is
`k` seconds; `retrieve k` is the status the k-th retrieve reports.  The fuel
only makes the recursion structural: it is chosen so that the `timeout < k`
test always fires first. -/
def wait_for_run_completion_loop : Nat → (Nat → String) → Nat → Nat → Except String String
  | 0, _, timeout, _ => .error (run_timeout_message timeout)
  | fuel + 1, retrieve, timeout, k =>
    if timeout < k then .error (run_timeout_message timeout)
    else if is_terminal_run_status (retrieve k) then .ok (retrieve k)
    else wait_for_run_completion_loop fuel retrieve timeout (k + 1)

/-- `StudyBuddyClient.wait_for_run_completion`: poll once a second until a
terminal status or until more than `timeout` seconds have elapsed; on timeout
a `RuntimeError` is raised and no run is returned. -/
def wait_for_run_completion (retrieve : Nat → String) (timeout : Nat) : Except String String :=
  wait_for_run_completion_loop (timeout + 2) retrieve timeout 0

/-! ### Concrete data used by the claims -/

/-- Reading of the spec's words for the refinement claim about the extension
check: "the lowercased form of its extension" — the extension being the
filename's suffix without its leading dot, case preserved. -/
def extension_of (filename : String) : String :=
  String.mk ((path_suffix filename.data).dropWhile (fun c => c == '.'))

/-- The input text of the extraction-tolerance claim. -/
def c5_input : String :=
  "Sure! Here you go:\n```json\n[\x7b\"question\":\"Q\",\"options\":[\"a\",\"b\",\"c\",\"d\"],\"correct\":\"a\"\x7d]\n```\nHope that helps!"

/-- The one quiz record inside `c5_input`, as `json.loads` decodes it. -/
def c5_record : List (String × Json) :=
  [("question", .str "Q"),
   ("options", .arr [.str "a", .str "b", .str "c", .str "d"]),
   ("correct", .str "a")]

/-- A session state already tracking `a.pdf` (uploaded, indexed). -/
def st_one_file : FileMgrState :=
  ⟨[⟨"a.pdf", "temp_0_a.pdf", "fid0", 0, "pdf", 0⟩], some "vs_1", some "asst_1"⟩

/-- A two-item quiz for the grading claim. -/
def demo_quiz : List QuizItem :=
  [⟨"Q1", ["a", "b", "c", "d"], "a"⟩, ⟨"Q2", ["a", "b", "c", "d"], "b"⟩]

/-- Selections matching `correct` on item 1 ("a") but not on item 2 ("c" vs "b"). -/
def demo_answers : Nat → String := fun i => if i == 0 then "a" else "c"

/-! ## Helper lemmas -/

theorem py_char_lower_dot (c : Char) : (py_char_lower c == '.') = (c == '.') := by
  unfold py_char_lower
  split <;> rfl

theorem map_lower_dropWhile_dot (l : List Char) :
    (l.map py_char_lower).dropWhile (fun c => c == '.')
      = (l.dropWhile (fun c => c == '.')).map py_char_lower := by
  induction l with
  | nil => rfl
  | cons c rest ih =>
    simp only [List.map_cons, List.dropWhile_cons, py_char_lower_dot]
    cases h : (c == '.') <;> simp [h, ih]

theorem remove_first_fst (l : List UploadedFile) (filename : String) :
    (remove_first_by_name l filename).1 = l.any (fun f => f.original_name == filename) := by
  induction l with
  | nil => rfl
  | cons f rest ih =>
    unfold remove_first_by_name
    cases h : (f.original_name == filename) <;> simp [h, ih]

theorem grade_fold_score (ua : Nat → String) (l : List (Nat × QuizItem)) :
    ∀ acc : Nat × List String,
      (l.foldl (grade_step ua) acc).1 = acc.1 + l.countP (fun p => ua p.1 == p.2.correct) := by
  induction l with
  | nil => intro acc; simp
  | cons a l ih =>
    intro acc
    rw [List.foldl_cons, ih, List.countP_cons]
    unfold grade_step
    cases h : (ua a.1 == a.2.correct) with
    | false => simp [h]
    | true => simp [h]; omega

theorem wait_loop_timeout (retrieve : Nat → String) (timeout : Nat)
    (h : ∀ k, k ≤ timeout → is_terminal_run_status (retrieve k) = false) :
    ∀ fuel k, wait_for_run_completion_loop fuel retrieve timeout k
      = .error (run_timeout_message timeout) := by
  intro fuel
  induction fuel with
  | zero => intro k; rfl
  | succ fuel ih =>
    intro k
    unfold wait_for_run_completion_loop
    by_cases hk : timeout < k
    · simp [hk]
    · have hk2 : k ≤ timeout := Nat.le_of_not_lt hk
      simp [hk, h k hk2, ih]

theorem subseg_trans {x y z : List Char} (h1 : SubSeg x y) (h2 : SubSeg y z) : SubSeg x z := by
  obtain ⟨a1, b1, rfl⟩ := h1
  obtain ⟨a2, b2, rfl⟩ := h2
  exact ⟨a2 ++ a1, b1 ++ b2, by simp⟩

theorem subseg_slice (cs : List Char) (i j : Nat) : SubSeg (py_slice cs i j) cs :=
  ⟨cs.take i, (cs.drop i).drop j, by
    unfold py_slice
    rw [List.append_assoc, List.take_append_drop, List.take_append_drop]⟩

theorem subseg_drop (l : List Char) (n : Nat) : SubSeg (l.drop n) l :=
  ⟨l.take n, [], by simp⟩

theorem subseg_dropWhile (p : Char → Bool) (l : List Char) : SubSeg (l.dropWhile p) l := by
  induction l with
  | nil => exact ⟨[], [], rfl⟩
  | cons c rest ih =>
    by_cases h : p c = true
    · obtain ⟨a, b, hab⟩ := ih
      exact ⟨c :: a, b, by simp [List.dropWhile_cons, h, ← hab]⟩
    · exact ⟨[], [], by simp [List.dropWhile_cons, h]⟩

theorem subseg_reverse {x y : List Char} (h : SubSeg x y) : SubSeg x.reverse y.reverse := by
  obtain ⟨a, b, rfl⟩ := h
  exact ⟨b.reverse, a.reverse, by simp⟩

theorem subseg_py_rstrip (p : Char → Bool) (l : List Char) : SubSeg (py_rstrip p l) l := by
  have h := subseg_reverse (subseg_dropWhile p l.reverse)
  simpa [py_rstrip] using h

theorem subseg_py_strip (p : Char → Bool) (l : List Char) : SubSeg (py_strip p l) l :=
  subseg_trans (subseg_py_rstrip p (py_lstrip p l)) (subseg_dropWhile p l)

theorem subseg_clean_fences (text : List Char) : SubSeg (clean_fences text) text := by
  unfold clean_fences
  by_cases h : starts_with_chars "```".data (py_strip py_ws_char text) = true
  · simp only [h, if_true]
    have h1 : SubSeg (py_strip py_ws_char text) text := subseg_py_strip _ _
    have h2 : SubSeg (py_strip fence_char (py_strip py_ws_char text))
        (py_strip py_ws_char text) := subseg_py_strip _ _
    by_cases h3 : starts_with_chars "json\n".data
        (py_strip fence_char (py_strip py_ws_char text)) = true
    · simp only [h3, if_true]
      exact subseg_trans (subseg_trans (subseg_py_strip _ _)
        (subseg_trans (subseg_drop _ 5) h2)) h1
    · simp only [h3, if_false]
      exact subseg_trans (subseg_trans (subseg_py_strip _ _) h2) h1
  · simp only [h, if_false]
    exact ⟨[], [], by simp⟩

theorem mem_all_sub_segs {x cs : List Char} (h : SubSeg x cs) : x ∈ all_sub_segs cs := by
  obtain ⟨a, b, rfl⟩ := h
  unfold all_sub_segs
  rw [List.mem_flatMap]
  refine ⟨a.length, List.mem_range.mpr ?_, ?_⟩
  · simp [List.length_append]
    omega
  · rw [List.mem_map]
    refine ⟨x.length, List.mem_range.mpr ?_, ?_⟩
    · simp [List.length_append]
      omega
    · unfold py_slice
      rw [List.append_assoc, List.drop_left, List.take_left]

theorem regex_candidate_subseg {t c : List Char} (h : regex_array_candidate t = some c) :
    SubSeg c t := by
  unfold regex_array_candidate at h
  split at h
  · split at h
    · cases h
      exact subseg_slice t _ _
    · cases h
  · cases h

theorem scan_candidate_subseg {t c : List Char} (h : scan_array_candidate t = some c) :
    SubSeg c t := by
  unfold scan_array_candidate at h
  rcases hs : scan_loop t 0 0 none with _ | ⟨s, e⟩ <;> rw [hs] at h
  · cases h
  · cases h
    exact subseg_slice t s (e + 1 - s)

theorem first_parse_none {l : List (List Char)}
    (h : ∀ c ∈ l, except_is_ok (json_loads c) = false) : first_parse l = none := by
  induction l with
  | nil => rfl
  | cons c rest ih =>
    unfold first_parse
    have hc := h c (List.mem_cons_self c rest)
    cases hj : json_loads c with
    | ok v => rw [hj] at hc; cases hc
    | error e => exact ih (fun d hd => h d (List.mem_cons_of_mem c hd))

/-! ## Claim theorems -/

/-- C1 (counterexample): adding `a.pdf` while `a.pdf` is already tracked does
NOT fail with a DuplicateName error.  The upload handler silently skips the
file (outcome `.skipped`, not `.failed`), and `FileManager.add_file` itself,
called directly on the duplicate, succeeds — there is no duplicate check
anywhere that raises. -/
theorem duplicate_add_does_not_raise :
    handle_file_upload_step ("a.pdf", 1000) st_one_file "fid9" 5 = (.skipped, st_one_file, []) ∧
      upload_outcome_failed (handle_file_upload_step ("a.pdf", 1000) st_one_file "fid9" 5).1
        = false ∧
      except_is_ok (add_file ("a.pdf", 1000) 5 st_one_file) = true :=
  ⟨rfl, rfl, rfl⟩

/-- C1 (amended): for every session state, adding a document whose
display_name is already tracked is silently skipped by the upload handler —
no error is raised, no remote call is made, and the tracked document list
(indeed the whole state) after the call equals the one before it. -/
theorem duplicate_upload_skipped_silently (file : String × Nat) (st : FileMgrState)
    (new_file_id : String) (now : Nat) (h : has_file_with_name st file.1 = true) :
    handle_file_upload_step file st new_file_id now = (.skipped, st, []) := by
  unfold handle_file_upload_step
  simp [h]

/-- Witness for `duplicate_upload_skipped_silently` at a concrete state. -/
theorem duplicate_upload_skipped_silently_witness :
    has_file_with_name st_one_file "a.pdf" = true ∧
      handle_file_upload_step ("a.pdf", 2000) st_one_file "fid9" 7 = (.skipped, st_one_file, []) :=
  ⟨rfl, duplicate_upload_skipped_silently ("a.pdf", 2000) st_one_file "fid9" 7 rfl⟩

/-- C2 (counterexample): removing a tracked, uploaded, indexed file while both
remote cleanup calls fail (`ok := false` on the detach and on the Files-API
delete) still returns the flag `true` — full success, not a degraded result. -/
theorem remove_reports_full_success_despite_remote_failure :
    remove_file_completely st_one_file "a.pdf" true false false
      = (true, ⟨[], some "vs_1", some "asst_1"⟩,
         [RemoteCall.remove_file_from_vector_store "vs_1" "fid0" false,
          RemoteCall.delete_file "fid0" false]) := rfl

/-- C2 (amended): the flag returned by `remove_file_completely` reports only
whether a tracked file of that name existed and was removed locally; it does
not depend on whether a client was supplied nor on the outcome of the remote
detach/delete calls, so remote-cleanup failure is reported as full success. -/
theorem remove_completely_flag_is_local (st : FileMgrState) (filename : String)
    (client_present detach_ok delete_ok : Bool) :
    (remove_file_completely st filename client_present detach_ok delete_ok).1
      = has_file_with_name st filename := by
  unfold remove_file_completely remove_file has_file_with_name
  rcases hr : remove_first_by_name st.uploaded_files filename with ⟨b, l2⟩
  have := remove_first_fst st.uploaded_files filename
  rw [hr] at this
  simpa using this

/-- C4 (confirmed): `needs_vector_store_update` is true iff (no documents and
a truthy Index or Assistant id is recorded) or (documents exist and no truthy
Index id is recorded); false in every other combination — the state does not
track which documents an Index covers, so a partial subset never triggers it. -/
theorem needs_resync_iff (st : FileMgrState) :
    needs_vector_store_update st = true ↔
      ((st.uploaded_files = [] ∧
          (py_truthy_str st.vector_store_id = true ∨ py_truthy_str st.assistant_id = true)) ∨
       (st.uploaded_files ≠ [] ∧ py_truthy_str st.vector_store_id = false)) := by
  unfold needs_vector_store_update
  rcases st with ⟨files, vs, asst⟩
  cases files with
  | nil => cases h1 : py_truthy_str vs <;> cases h2 : py_truthy_str asst <;> simp [h1, h2]
  | cons f fs => cases h1 : py_truthy_str vs <;> simp [h1]

set_option maxRecDepth 40000 in
/-- C5 (confirmed): on prose + ```json fenced quiz + prose, extraction
succeeds with exactly the one record of the fenced array, whose `correct`
field is `"a"`. -/
theorem extract_tolerates_fenced_quiz :
    extract_first_json_array c5_input = .ok (.arr [.obj c5_record]) ∧
      obj_lookup c5_record "correct" = some (.str "a") :=
  ⟨rfl, rfl⟩

/-- C6 (confirmed): when no poll within the timeout window reports a terminal
status, `wait_for_run_completion` raises the timeout `RuntimeError` — an
`.error`, so no run result is returned. -/
theorem run_polling_times_out (retrieve : Nat → String) (timeout : Nat)
    (h : ∀ k, k ≤ timeout → is_terminal_run_status (retrieve k) = false) :
    wait_for_run_completion retrieve timeout = .error (run_timeout_message timeout) :=
  wait_loop_timeout retrieve timeout h (timeout + 2) 0

/-- Witness for `run_polling_times_out`: a run that stays `in_progress`. -/
theorem run_polling_times_out_witness :
    (∀ k, k ≤ 3 → is_terminal_run_status ((fun _ => "in_progress") k) = false) ∧
      wait_for_run_completion (fun _ => "in_progress") 3 = .error (run_timeout_message 3) :=
  ⟨fun _ _ => rfl, run_polling_times_out (fun _ => "in_progress") 3 (fun _ _ => rfl)⟩

/-- C7 (confirmed): the computed score is exactly the number of items whose
selection is string-equal to `correct`; in particular the two-item demo quiz
with a match on item 1 only scores 1 out of 2. -/
theorem quiz_score_is_exact_match_count :
    (∀ (quiz : List QuizItem) (user_answers : Nat → String),
        (grade_quiz quiz user_answers).1
          = quiz.enum.countP (fun p => user_answers p.1 == p.2.correct)) ∧
      (grade_quiz demo_quiz demo_answers).1 = 1 ∧ demo_quiz.length = 2 := by
  refine ⟨?_, rfl, rfl⟩
  intro quiz ua
  unfold grade_quiz
  simpa using grade_fold_score ua quiz.enum (0, [])

/-- C8 (counterexample): a file of 209715201 bytes exceeds the configured
ceiling (200 MiB = 209715200 bytes) by one byte, yet `add_file` accepts it —
`round(size/2^20, 1)` is exactly 200.0 — and the upload call goes out. -/
theorem oversize_file_accepted_at_boundary :
    MAX_FILE_SIZE_MB * 1024 * 1024 < 209715201 ∧
      handle_file_upload_step ("big.pdf", 209715201) empty_state "fid1" 0
        = (.uploaded,
           ⟨[⟨"big.pdf", "temp_0_big.pdf", "fid1", 2000, "pdf", 0⟩], none, none⟩,
           [RemoteCall.upload_file "temp_0_big.pdf" "fid1"]) :=
  ⟨by decide, rfl⟩

/-- C8 (amended): whenever the rounded size check `round(size/2^20, 1) >
MAX_FILE_SIZE_MB` holds (not the raw byte comparison: sizes up to ~0.05 MB
above the ceiling slip through), `add_file` fails with the TooLarge
`ValueError`, and the rejection happens before any remote call is made,
leaving the registry state unchanged. -/
theorem oversize_rejected_before_remote_calls (file : String × Nat) (st : FileMgrState)
    (new_file_id : String) (now : Nat)
    (hdup : has_file_with_name st file.1 = false)
    (htype : validate_file_type file.1 SUPPORTED_EXTS = true)
    (hsize : MAX_FILE_SIZE_MB * 10 < get_file_size_mb_x10 file.2) :
    handle_file_upload_step file st new_file_id now
      = (.failed (.too_large (get_file_size_mb_x10 file.2) MAX_FILE_SIZE_MB), st, []) := by
  unfold handle_file_upload_step add_file
  simp [hdup, htype, hsize]

/-- Witness for `oversize_rejected_before_remote_calls`: a 320000000-byte file
(≈ 305.2 MB) is rejected with no remote call and no state change. -/
theorem oversize_rejected_before_remote_calls_witness :
    has_file_with_name empty_state "big.pdf" = false ∧
      validate_file_type "big.pdf" SUPPORTED_EXTS = true ∧
      MAX_FILE_SIZE_MB * 10 < get_file_size_mb_x10 320000000 ∧
      handle_file_upload_step ("big.pdf", 320000000) empty_state "fid1" 3
        = (.failed (.too_large (get_file_size_mb_x10 320000000) MAX_FILE_SIZE_MB),
           empty_state, []) :=
  ⟨rfl, rfl, by decide,
    oversize_rejected_before_remote_calls ("big.pdf", 320000000) empty_state "fid1" 3
      rfl rfl (by decide)⟩

/-- C9 (confirmed, implicit): the allow-list check is case-insensitive — for
every filename, `validate_file_type` accepts exactly when the lowercased form
of its extension is in the allow-list; in particular `notes.PDF` passes the
check and `add_file` accepts it even though the allow-list holds only
lowercase entries. -/
theorem extension_check_case_insensitive :
    (∀ filename : String,
        validate_file_type filename SUPPORTED_EXTS
          = SUPPORTED_EXTS.contains (str_lower (extension_of filename))) ∧
      validate_file_type "notes.PDF" SUPPORTED_EXTS = true ∧
      except_is_ok (add_file ("notes.PDF", 1000) 0 empty_state) = true := by
  refine ⟨?_, rfl, rfl⟩
  intro filename
  unfold validate_file_type file_ext str_lower extension_of
  rw [map_lower_dropWhile_dot]

/-- C10 (confirmed, implicit): `extract_first_json_array` does not guarantee
an array — on the input `"7"` (no bracketed candidate, but valid JSON as a
whole) the fallback whole-text parse succeeds and the non-array value `7` is
returned. -/
theorem extract_returns_non_array_on_scalar :
    extract_first_json_array "7" = .ok (.num "7") ∧ json_is_arr (.num "7") = false :=
  ⟨rfl, rfl⟩

/-- C3 (counterexample): on `"no json here"` extraction does fail, but the
raised `ValueError` carries only the JSON decoder's message — the original
raw input text does not occur anywhere in the error. -/
theorem extract_error_lacks_raw_text :
    extract_first_json_array "no json here"
        = .error "Could not parse quiz data: Expecting value: line 1 column 1 (char 0)" ∧
      contains_seg
        "Could not parse quiz data: Expecting value: line 1 column 1 (char 0)".data
        "no json here".data = false :=
  ⟨rfl, rfl⟩

/-- C3 (amended): for every input text none of whose contiguous substrings
parses as JSON (hence no bracket-balanced substring and not the text itself,
fences stripped or not), `extract_first_json_array` fails, and the raised
error carries the decoder's failure message, not the original raw text. -/
theorem extract_fails_without_parsable_substring (text : String)
    (h : (all_sub_segs text.data).all (fun l => !(except_is_ok (json_loads l))) = true) :
    ∃ m, extract_first_json_array text = .error ("Could not parse quiz data: " ++ m) := by
  have hall : ∀ l, SubSeg l text.data → except_is_ok (json_loads l) = false := by
    intro l hl
    have hx := (List.all_eq_true.mp h) l (mem_all_sub_segs hl)
    simpa using hx
  have hT : SubSeg (clean_fences text.data) text.data := subseg_clean_fences _
  have hfp : first_parse
      ((match regex_array_candidate (clean_fences text.data) with
        | some c => [c] | none => []) ++
       (match scan_array_candidate (clean_fences text.data) with
        | some c => [c] | none => [])) = none := by
    apply first_parse_none
    intro c hc
    rw [List.mem_append] at hc
    apply hall
    rcases hc with hc | hc
    · rcases hr : regex_array_candidate (clean_fences text.data) with _ | r <;> rw [hr] at hc
      · cases hc
      · rw [List.mem_singleton] at hc
        subst hc
        exact subseg_trans (regex_candidate_subseg hr) hT
    · rcases hs : scan_array_candidate (clean_fences text.data) with _ | s <;> rw [hs] at hc
      · cases hc
      · rw [List.mem_singleton] at hc
        subst hc
        exact subseg_trans (scan_candidate_subseg hs) hT
  have hfb := hall _ hT
  simp only [extract_first_json_array]
  rw [hfp]
  cases hjl : json_loads (clean_fences text.data) with
  | ok v => rw [hjl] at hfb; cases hfb
  | error e =>
    rcases e with ⟨kind, pos⟩
    exact ⟨render_json_error (clean_fences text.data) kind pos, rfl⟩

set_option maxRecDepth 40000 in
/-- Witness for `extract_fails_without_parsable_substring` at `"no json
here"`: no substring of it parses as JSON, and extraction fails with the
decoder message. -/
theorem extract_fails_without_parsable_substring_witness :
    ∃ m, extract_first_json_array "no json here"
      = .error ("Could not parse quiz data: " ++ m) :=
  extract_fails_without_parsable_substring "no json here" (by rfl)

/-- Witness for `remove_completely_flag_is_local` at a concrete state. -/
theorem remove_completely_flag_is_local_witness :
    (remove_file_completely st_one_file "a.pdf" true false false).1
      = has_file_with_name st_one_file "a.pdf" :=
  remove_completely_flag_is_local st_one_file "a.pdf" true false false

/-- Witness for `needs_resync_iff` at a concrete state. -/
theorem needs_resync_iff_witness :
    needs_vector_store_update st_one_file = true ↔
      ((st_one_file.uploaded_files = [] ∧
          (py_truthy_str st_one_file.vector_store_id = true ∨
           py_truthy_str st_one_file.assistant_id = true)) ∨
       (st_one_file.uploaded_files ≠ [] ∧ py_truthy_str st_one_file.vector_store_id = false)) :=
  needs_resync_iff st_one_file
